import Mathlib

/-!
Verification of the validated chart renderer `f_2258`
(src/data/raw/f_2258_junda_james.py).

The function receives a pandas DataFrame and two column names, validates
the frame (non-empty, numeric sales dtype, no duplicate categories) and,
on success, renders a bar chart keyed by the category column.

Shallow embedding:
* a `DataFrame` is a list of named columns; each `Column` carries a dtype
  kind tag (pandas `dtype.kind`: one of `b i u f c` for numeric kinds,
  `o` for object) together with its cell values;
* column access (`df[name]`) and `set_index` return `Except Err _`, where
  `Err.keyError` models pandas `KeyError` (the ColumnNotFoundError of the spec)
  and `Err.valueError` models `ValueError` (the InvalidDataError of the spec);
* side effects (logging at error severity, drawing bars, setting the
  title and the y-axis label, showing the figure) are recorded in an
  effect trace;
* the frame of the caller is threaded through and returned, so that absence of
  mutation is a statable property (pandas `set_index` with its default
  arguments returns a new frame and leaves its receiver untouched, which
  the embedding reflects by never rebinding the input frame).
-/

/-- A cell value: either a string (object cell) or an integer (numeric cell). -/
inductive Value where
  | str (s : String)
  | int (n : Int)
deriving DecidableEq, Repr

/-- pandas `dtype.kind` tags relevant to the check that kind is one of b, i, u, f, c:
boolean, signed integer, unsigned integer, float, complex, object. -/
inductive DKind where
  | b | i | u | f | c | o
deriving DecidableEq, Repr

/-- Membership of a dtype kind in the numeric-kind set b, i, u, f, c. -/
def DKind.isNumeric : DKind → Bool
  | .b => true
  | .i => true
  | .u => true
  | .f => true
  | .c => true
  | .o => false

/-- A DataFrame column: its dtype kind and its cell values, in row order. -/
structure Column where
  kind : DKind
  values : List Value
deriving DecidableEq, Repr

/-- A DataFrame: named columns in order.  The (default range) row index is
not observable in any property below and is omitted. -/
structure DataFrame where
  cols : List (String × Column)
deriving DecidableEq, Repr

/-- Number of rows of the frame: the length of its first column
(0 when there are no columns). -/
def DataFrame.nrows (df : DataFrame) : Nat :=
  match df.cols with
  | [] => 0
  | c :: _ => c.2.values.length

/-- Well-formedness: every column has `nrows` values and column names are
distinct, as in any pandas frame built from a dict of equal-length lists. -/
def DataFrame.WF (df : DataFrame) : Prop :=
  (∀ c ∈ df.cols, c.2.values.length = df.nrows) ∧ (df.cols.map Prod.fst).Nodup

instance (df : DataFrame) : Decidable df.WF := by
  unfold DataFrame.WF; infer_instance

/-- pandas `df.empty`: true iff some axis has length zero. -/
def DataFrame.empty (df : DataFrame) : Bool :=
  df.nrows == 0

/-- The two error kinds of the contract: `valueError` is the InvalidDataError
of the spec, `keyError` the ColumnNotFoundError of the spec. -/
inductive Err where
  | valueError (msg : String)
  | keyError (key : String)
deriving DecidableEq, Repr

/-- Column access `df[name]`: the first column of that name, or `KeyError`. -/
def DataFrame.getCol (df : DataFrame) (name : String) : Except Err Column :=
  match df.cols.find? (fun c => c.1 == name) with
  | some c => .ok c.2
  | none => .error (.keyError name)

/-- pandas `df.set_index(name)` (default `drop=True`, not in place): a new
frame whose index holds the values of the named column and whose columns are the
remaining ones; `KeyError` when the name is absent. -/
def DataFrame.set_index (df : DataFrame) (name : String) :
    Except Err (List Value × DataFrame) :=
  match df.cols.find? (fun c => c.1 == name) with
  | some c => .ok (c.2.values, ⟨df.cols.filter (fun p => p.1 != name)⟩)
  | none => .error (.keyError name)

/-- `series.duplicated().any()`: does some value occur more than once? -/
def hasDuplicate : List Value → Bool
  | [] => false
  | v :: vs => vs.contains v || hasDuplicate vs

/-- Observable side effects of one call, in order of occurrence. -/
inductive Effect where
  | logError (msg : String)
  | drawBar (cat : Value) (height : Value)
  | setTitle (t : String)
  | setYlabel (l : String)
  | showFig
deriving DecidableEq, Repr

/-- Is an effect part of rendering (anything but a log entry)? -/
def Effect.isRender : Effect → Bool
  | .logError _ => false
  | _ => true

/-- Is an effect a diagnostic log entry? -/
def Effect.isLog : Effect → Bool
  | .logError _ => true
  | _ => false

/-- The chart handle (matplotlib Axes): bars in draw order as
(category, height) pairs, the title, and the y-axis label if one was set. -/
structure Chart where
  bars : List (Value × Value)
  title : String
  ylabel : Option String
deriving DecidableEq, Repr

/-- Result of one call: the frame of the caller after the call, the effect
trace, and either an error or the returned value (which, Python being
dynamically typed, may in principle be `none`, i.e. Python `None`). -/
structure RunResult where
  df : DataFrame
  trace : List Effect
  result : Except Err (Option Chart)
deriving Repr

/-- Error message of the emptiness / numeric-dtype check. -/
def msgEmptyOrNonNumeric : String :=
  "DataFrame is empty, lacks sales data, or sales data is not numeric."

/-- Error message of the duplicate-category check. -/
def msgDuplicate : String :=
  "DataFrame contains duplicate entries in the category column."

/-- Title fixed by the source. -/
def chartTitle : String := "Sales Report by Category"

/-- The full rendering portion of a successful trace: one bar per
(category, height) pair in order, then title, y-axis label, and display. -/
def renderTrace (bars : List (Value × Value)) : List Effect :=
  (bars.map fun b => Effect.drawBar b.1 b.2)
    ++ [Effect.setTitle chartTitle, Effect.setYlabel "Sales", Effect.showFig]

/-- The embedding of `f_2258(df, category_col, sales_col)`.

Source, line by line:
```
if df.empty or the dtype kind of df[sales_col] is not numeric:
    logging.error(msg1); raise ValueError(msg1)
if df[category_col].duplicated().any():
    logging.error(msg2); raise ValueError(msg2)
ax = bar plot of df.set_index(category_col)[sales_col]
        with title "Sales Report by Category"
plt.ylabel of "Sales"
plt.show()
return ax
```
The Python `or` short-circuits, so `df[sales_col]` is only evaluated when the
frame is non-empty; a failed column lookup raises `KeyError` before anything
is logged or drawn. -/
def f_2258 (df : DataFrame) (category_col sales_col : String) : RunResult :=
  if df.empty then
    { df := df
      trace := [.logError msgEmptyOrNonNumeric]
      result := .error (.valueError msgEmptyOrNonNumeric) }
  else
    match df.getCol sales_col with
    | .error e => { df := df, trace := [], result := .error e }
    | .ok salesCol =>
      if !salesCol.kind.isNumeric then
        { df := df
          trace := [.logError msgEmptyOrNonNumeric]
          result := .error (.valueError msgEmptyOrNonNumeric) }
      else
        match df.getCol category_col with
        | .error e => { df := df, trace := [], result := .error e }
        | .ok catCol =>
          if hasDuplicate catCol.values then
            { df := df
              trace := [.logError msgDuplicate]
              result := .error (.valueError msgDuplicate) }
          else
            match df.set_index category_col with
            | .error e => { df := df, trace := [], result := .error e }
            | .ok (idx, reindexed) =>
              match reindexed.getCol sales_col with
              | .error e => { df := df, trace := [], result := .error e }
              | .ok sCol =>
                let bars := idx.zip sCol.values
                { df := df
                  trace := renderTrace bars
                  result := .ok (some { bars := bars
                                        title := chartTitle
                                        ylabel := some "Sales" }) }

/-! ## Concrete frames (from the doctest and test suite of the source) -/

/-- The category column of the example: five distinct product categories. -/
def exCategoryCol : Column :=
  ⟨.o, [.str "Electronics", .str "Clothing", .str "Home", .str "Books", .str "Sports"]⟩

/-- The sales column of the example: five integer sales figures. -/
def exSalesCol : Column :=
  ⟨.i, [.int 1000, .int 1500, .int 1200, .int 800, .int 1100]⟩

/-- The doctest frame: five rows, unique categories, numeric sales. -/
def exDf : DataFrame := ⟨[("Category", exCategoryCol), ("Sales", exSalesCol)]⟩

/-- The chart the doctest frame renders to. -/
def exChart : Chart :=
  ⟨exCategoryCol.values.zip exSalesCol.values, chartTitle, some "Sales"⟩

/-- Result of pd.DataFrame with columns Category and Sales and no data: zero rows, object dtype. -/
def exEmptyDf : DataFrame := ⟨[("Category", ⟨.o, []⟩), ("Sales", ⟨.o, []⟩)]⟩

/-- A frame with no columns at all (also zero rows). -/
def exNoColsDf : DataFrame := ⟨[]⟩

/-- Two rows whose sales column holds strings (object dtype). -/
def exNonNumericDf : DataFrame :=
  ⟨[("Category", ⟨.o, [.str "A", .str "B"]⟩),
    ("Sales", ⟨.o, [.str "x", .str "y"]⟩)]⟩

/-- Two rows with both a duplicated category and non-numeric sales. -/
def exBothBadDf : DataFrame :=
  ⟨[("Category", ⟨.o, [.str "A", .str "A"]⟩),
    ("Sales", ⟨.o, [.str "x", .str "y"]⟩)]⟩

/-- `pd.concat([df, df])`: ten rows, each category appearing twice. -/
def exDupDf : DataFrame :=
  ⟨[("Category", ⟨.o, exCategoryCol.values ++ exCategoryCol.values⟩),
    ("Sales", ⟨.i, exSalesCol.values ++ exSalesCol.values⟩)]⟩

/-! ## Helper lemmas (shared) -/

/-- A successful column lookup pins down the `find?` result: the name of the found
pair is the requested one and its column is the returned one. -/
theorem getCol_ok_find (df : DataFrame) (n : String) (col : Column)
    (h : df.getCol n = .ok col) :
    df.cols.find? (fun p => p.1 == n) = some (n, col) := by
  unfold DataFrame.getCol at h
  cases hf : df.cols.find? (fun p => p.1 == n) with
  | none => rw [hf] at h; exact absurd h (by simp)
  | some p =>
    rw [hf] at h
    have h1 := List.find?_some hf
    have h2 : p.2 = col := by simpa using h
    have h3 : p.1 = n := by simpa using h1
    rw [← h3, ← h2]

/-- Dropping the pairs named `cc` does not disturb a lookup for a
different name `sc`. -/
theorem find?_filter_ne (l : List (String × Column)) (cc sc : String)
    (c : String × Column) (hdiff : cc ≠ sc)
    (h : l.find? (fun p => p.1 == sc) = some c) :
    (l.filter (fun p => p.1 != cc)).find? (fun p => p.1 == sc) = some c := by
  induction l with
  | nil => simp at h
  | cons a t ih =>
    by_cases ha : a.1 = sc
    · have hkeep : (a.1 != cc) = true := by
        simp [ha, bne_iff_ne]
        exact fun hx => hdiff hx.symm
      have hfind : (a.1 == sc) = true := by simp [ha]
      simp only [List.find?_cons, hfind, cond_true] at h
      simp [List.filter_cons, hkeep, List.find?_cons, hfind, h]
    · have hfind : (a.1 == sc) = false := by simp [ha]
      simp only [List.find?_cons, hfind, cond_false] at h
      by_cases hk : (a.1 != cc) = true
      · simp [List.filter_cons, hk, List.find?_cons, hfind, ih h]
      · simp only [Bool.not_eq_true] at hk
        simp [List.filter_cons, hk, ih h]

/-- Every effect of the rendering suffix is a rendering effect. -/
theorem filter_isRender_renderTrace (bars : List (Value × Value)) :
    (renderTrace bars).filter Effect.isRender = renderTrace bars := by
  induction bars with
  | nil => simp [renderTrace, Effect.isRender]
  | cons b bs ih =>
    simpa [renderTrace, Effect.isRender] using ih

/-- Exhaustive shape of a call: either a logged `ValueError`, a silent
`KeyError`, or a full render of some bar list.  In every case the
frame of the caller comes back unchanged. -/
theorem f_2258_shape (df : DataFrame) (cc sc : String) :
    (∃ m, f_2258 df cc sc =
      { df := df, trace := [.logError m], result := .error (.valueError m) }) ∨
    (∃ k, f_2258 df cc sc =
      { df := df, trace := [], result := .error (.keyError k) }) ∨
    (∃ bars, f_2258 df cc sc =
      { df := df, trace := renderTrace bars,
        result := .ok (some { bars := bars, title := chartTitle,
                              ylabel := some "Sales" }) }) := by
  cases he : df.empty with
  | true => exact Or.inl ⟨msgEmptyOrNonNumeric, by simp [f_2258, he]⟩
  | false =>
    cases hs : df.getCol sc with
    | error e =>
      cases e with
      | valueError m => exact absurd hs (by simp [DataFrame.getCol]; cases df.cols.find? (fun p => p.1 == sc) <;> simp)
      | keyError k => exact Or.inr (Or.inl ⟨k, by simp [f_2258, he, hs]⟩)
    | ok sCol =>
      cases hn : sCol.kind.isNumeric with
      | false => exact Or.inl ⟨msgEmptyOrNonNumeric, by simp [f_2258, he, hs, hn]⟩
      | true =>
        cases hc : df.getCol cc with
        | error e =>
          cases e with
          | valueError m => exact absurd hc (by simp [DataFrame.getCol]; cases df.cols.find? (fun p => p.1 == cc) <;> simp)
          | keyError k => exact Or.inr (Or.inl ⟨k, by simp [f_2258, he, hs, hn, hc]⟩)
        | ok cCol =>
          cases hd : hasDuplicate cCol.values with
          | true => exact Or.inl ⟨msgDuplicate, by simp [f_2258, he, hs, hn, hc, hd]⟩
          | false =>
            cases hsi : df.set_index cc with
            | error e =>
              cases e with
              | valueError m => exact absurd hsi (by simp [DataFrame.set_index]; cases df.cols.find? (fun p => p.1 == cc) <;> simp)
              | keyError k =>
                exact Or.inr (Or.inl ⟨k, by simp [f_2258, he, hs, hn, hc, hd, hsi]⟩)
            | ok p =>
              obtain ⟨idx, rdf⟩ := p
              cases hg : rdf.getCol sc with
              | error e =>
                cases e with
                | valueError m => exact absurd hg (by simp [DataFrame.getCol]; cases rdf.cols.find? (fun q => q.1 == sc) <;> simp)
                | keyError k =>
                  exact Or.inr (Or.inl ⟨k, by simp [f_2258, he, hs, hn, hc, hd, hsi, hg]⟩)
              | ok sCol2 =>
                exact Or.inr (Or.inr ⟨idx.zip sCol2.values,
                  by simp [f_2258, he, hs, hn, hc, hd, hsi, hg]⟩)

/-! ## Claim theorems -/

/-- Claim C1: for every non-empty well-formed dataset whose sales column is
numeric and whose category column has no duplicate values (the two columns
being distinct), `f_2258` returns a chart handle with exactly one bar per
row, the bars in row order pairing each category with the sales value of
its row, y-axis label "Sales" and title "Sales Report by Category". -/
theorem render_success_one_bar_per_row (df : DataFrame) (cc sc : String)
    (cCol sCol : Column)
    (hwf : df.WF) (hne : df.empty = false)
    (hs : df.getCol sc = .ok sCol) (hnum : sCol.kind.isNumeric = true)
    (hc : df.getCol cc = .ok cCol) (hnd : hasDuplicate cCol.values = false)
    (hdiff : cc ≠ sc) :
    ∃ ch : Chart,
      (f_2258 df cc sc).result = .ok (some ch) ∧
      ch.bars.length = df.nrows ∧
      ch.bars = cCol.values.zip sCol.values ∧
      ch.title = chartTitle ∧
      ch.ylabel = some "Sales" := by
  have hfs := getCol_ok_find df sc sCol hs
  have hfc := getCol_ok_find df cc cCol hc
  have hsi : df.set_index cc =
      .ok (cCol.values, ⟨df.cols.filter (fun p => p.1 != cc)⟩) := by
    simp [DataFrame.set_index, hfc]
  have hg : (DataFrame.mk (df.cols.filter (fun p => p.1 != cc))).getCol sc
      = .ok sCol := by
    have hff := find?_filter_ne df.cols cc sc (sc, sCol) hdiff hfs
    simp [DataFrame.getCol, hff]
  refine ⟨⟨cCol.values.zip sCol.values, chartTitle, some "Sales"⟩, ?_, ?_, rfl, rfl, rfl⟩
  · simp [f_2258, hne, hs, hnum, hc, hnd, hsi, hg]
  · have h1 : cCol.values.length = df.nrows :=
      hwf.1 (cc, cCol) (List.mem_of_find?_eq_some hfc)
    have h2 : sCol.values.length = df.nrows :=
      hwf.1 (sc, sCol) (List.mem_of_find?_eq_some hfs)
    simp [h1, h2]

/-- Claim C1 witness: the doctest frame renders to five bars in row order. -/
theorem render_success_one_bar_per_row_witness :
    ∃ ch : Chart,
      (f_2258 exDf "Category" "Sales").result = .ok (some ch) ∧
      ch.bars.length = exDf.nrows ∧
      ch.bars = exCategoryCol.values.zip exSalesCol.values ∧
      ch.title = chartTitle ∧
      ch.ylabel = some "Sales" :=
  render_success_one_bar_per_row exDf "Category" "Sales" exCategoryCol exSalesCol
    (by decide) rfl rfl rfl rfl rfl (by decide)

/-- Claim C2: a dataset with zero rows, and a non-empty dataset whose sales
column has a non-numeric dtype kind, both make `f_2258` fail with the
InvalidDataError message about emptiness or non-numeric sales. -/
theorem render_invalid_on_empty_or_nonnumeric (df : DataFrame) (cc sc : String)
    (h : df.nrows = 0 ∨
      (df.empty = false ∧
        ∃ sCol : Column, df.getCol sc = .ok sCol ∧ sCol.kind.isNumeric = false)) :
    (f_2258 df cc sc).result = .error (.valueError msgEmptyOrNonNumeric) := by
  rcases h with h | ⟨hne, sCol, hs, hnum⟩
  · have he : df.empty = true := by simp [DataFrame.empty, h]
    simp [f_2258, he]
  · simp [f_2258, hne, hs, hnum]

/-- Claim C2 witness: the zero-row frame and a frame with string-valued
sales both yield the emptiness or non-numeric error. -/
theorem render_invalid_on_empty_or_nonnumeric_witness :
    (f_2258 exEmptyDf "Category" "Sales").result
        = .error (.valueError msgEmptyOrNonNumeric) ∧
    (f_2258 exNonNumericDf "Category" "Sales").result
        = .error (.valueError msgEmptyOrNonNumeric) :=
  ⟨render_invalid_on_empty_or_nonnumeric exEmptyDf "Category" "Sales" (Or.inl rfl),
   render_invalid_on_empty_or_nonnumeric exNonNumericDf "Category" "Sales"
     (Or.inr ⟨rfl, ⟨.o, [.str "x", .str "y"]⟩, rfl, rfl⟩)⟩

/-- Claim C3: a non-empty dataset with a numeric sales column and a repeated
value in the category column makes `f_2258` fail with the duplicate-category
InvalidDataError. -/
theorem render_invalid_on_duplicate_category (df : DataFrame) (cc sc : String)
    (sCol cCol : Column)
    (hne : df.empty = false)
    (hs : df.getCol sc = .ok sCol) (hnum : sCol.kind.isNumeric = true)
    (hc : df.getCol cc = .ok cCol) (hdup : hasDuplicate cCol.values = true) :
    (f_2258 df cc sc).result = .error (.valueError msgDuplicate) := by
  simp [f_2258, hne, hs, hnum, hc, hdup]

/-- Claim C3 witness: the doctest frame concatenated with itself (ten rows,
each category twice) yields the duplicate-category error. -/
theorem render_invalid_on_duplicate_category_witness :
    (f_2258 exDupDf "Category" "Sales").result
        = .error (.valueError msgDuplicate) :=
  render_invalid_on_duplicate_category exDupDf "Category" "Sales"
    ⟨.i, exSalesCol.values ++ exSalesCol.values⟩
    ⟨.o, exCategoryCol.values ++ exCategoryCol.values⟩
    rfl rfl rfl rfl rfl

/-- Claim C4: checks run in a fixed order and the first failing check wins:
on a non-empty dataset whose sales column is non-numeric and whose category
column also has duplicates, the error raised is the emptiness or non-numeric
one, never the duplicate-category one. -/
theorem render_first_failing_check_wins (df : DataFrame) (cc sc : String)
    (sCol cCol : Column)
    (hne : df.empty = false)
    (hs : df.getCol sc = .ok sCol) (hnum : sCol.kind.isNumeric = false)
    (_hc : df.getCol cc = .ok cCol) (_hdup : hasDuplicate cCol.values = true) :
    (f_2258 df cc sc).result = .error (.valueError msgEmptyOrNonNumeric) ∧
    (f_2258 df cc sc).result ≠ .error (.valueError msgDuplicate) := by
  have h : (f_2258 df cc sc).result = .error (.valueError msgEmptyOrNonNumeric) := by
    simp [f_2258, hne, hs, hnum]
  refine ⟨h, ?_⟩
  rw [h]
  intro hx
  injection hx with hx1
  injection hx1 with hx2
  exact absurd hx2 (by decide)

/-- Claim C4 witness: two rows with a duplicated category and string sales
raise the emptiness or non-numeric error, not the duplicate one. -/
theorem render_first_failing_check_wins_witness :
    (f_2258 exBothBadDf "Category" "Sales").result
        = .error (.valueError msgEmptyOrNonNumeric) ∧
    (f_2258 exBothBadDf "Category" "Sales").result
        ≠ .error (.valueError msgDuplicate) :=
  render_first_failing_check_wins exBothBadDf "Category" "Sales"
    ⟨.o, [.str "x", .str "y"]⟩ ⟨.o, [.str "A", .str "A"]⟩
    rfl rfl rfl rfl rfl

/-- Claim C5: on a non-empty dataset with an existing numeric sales column,
a category-column name absent from the dataset makes `f_2258` fail with the
KeyError for that name (ColumnNotFoundError), never an InvalidDataError. -/
theorem render_keyerror_on_missing_category (df : DataFrame) (cc sc : String)
    (sCol : Column)
    (hne : df.empty = false)
    (hs : df.getCol sc = .ok sCol) (hnum : sCol.kind.isNumeric = true)
    (hc : df.getCol cc = .error (.keyError cc)) :
    (f_2258 df cc sc).result = .error (.keyError cc) ∧
    ∀ m, (f_2258 df cc sc).result ≠ .error (.valueError m) := by
  have h : (f_2258 df cc sc).result = .error (.keyError cc) := by
    simp [f_2258, hne, hs, hnum, hc]
  refine ⟨h, fun m hx => ?_⟩
  rw [h] at hx
  injection hx with hx1
  injection hx1

/-- Claim C5 witness: asking the doctest frame for the category column
"NonexistentCategory" yields a KeyError for that name. -/
theorem render_keyerror_on_missing_category_witness :
    (f_2258 exDf "NonexistentCategory" "Sales").result
        = .error (.keyError "NonexistentCategory") ∧
    ∀ m, (f_2258 exDf "NonexistentCategory" "Sales").result
        ≠ .error (.valueError m) :=
  render_keyerror_on_missing_category exDf "NonexistentCategory" "Sales"
    exSalesCol rfl rfl rfl rfl

/-- Claim C6: whenever a validation check fails, exactly one diagnostic log
entry at error severity is emitted, carrying the same message as the raised
InvalidDataError, and it is the whole trace (so it precedes the raise and
nothing else happens); a KeyError failure emits no effect at all. -/
theorem render_logging_discipline (df : DataFrame) (cc sc : String) :
    (∀ m, (f_2258 df cc sc).result = .error (.valueError m) →
        (f_2258 df cc sc).trace = [Effect.logError m]) ∧
    (∀ k, (f_2258 df cc sc).result = .error (.keyError k) →
        (f_2258 df cc sc).trace = []) := by
  rcases f_2258_shape df cc sc with ⟨m0, h⟩ | ⟨k0, h⟩ | ⟨bars, h⟩
  · rw [h]
    constructor
    · intro m hm
      simp only [Except.error.injEq, Err.valueError.injEq] at hm
      simp [hm]
    · intro k hk
      simp at hk
  · rw [h]
    constructor
    · intro m hm
      simp at hm
    · intro k hk
      rfl
  · rw [h]
    constructor
    · intro m hm
      simp at hm
    · intro k hk
      simp at hk

/-- Claim C6 witness: the empty frame logs exactly the emptiness message;
the missing-category KeyError call logs nothing. -/
theorem render_logging_discipline_witness :
    (f_2258 exEmptyDf "Category" "Sales").trace
        = [Effect.logError msgEmptyOrNonNumeric] ∧
    (f_2258 exDf "NonexistentCategory" "Sales").trace = [] :=
  ⟨(render_logging_discipline exEmptyDf "Category" "Sales").1
      msgEmptyOrNonNumeric rfl,
   (render_logging_discipline exDf "NonexistentCategory" "Sales").2
      "NonexistentCategory" rfl⟩

/-- Claim C7: rendering is atomic: every call either returns a complete
chart (all bars drawn, title set, y-axis labeled, figure shown) or raises
an error with no rendering effect whatsoever in its trace. -/
theorem render_atomicity (df : DataFrame) (cc sc : String) :
    (∃ ch : Chart, (f_2258 df cc sc).result = .ok (some ch) ∧
        ch.title = chartTitle ∧ ch.ylabel = some "Sales" ∧
        (f_2258 df cc sc).trace.filter Effect.isRender = renderTrace ch.bars) ∨
    (∃ e : Err, (f_2258 df cc sc).result = .error e ∧
        (f_2258 df cc sc).trace.filter Effect.isRender = []) := by
  rcases f_2258_shape df cc sc with ⟨m0, h⟩ | ⟨k0, h⟩ | ⟨bars, h⟩
  · exact Or.inr ⟨.valueError m0, by rw [h], by rw [h]; rfl⟩
  · exact Or.inr ⟨.keyError k0, by rw [h], by rw [h]; rfl⟩
  · refine Or.inl ⟨⟨bars, chartTitle, some "Sales"⟩, by rw [h], rfl, rfl, ?_⟩
    rw [h]
    simpa using filter_isRender_renderTrace bars

/-- Claim C8: the frame of the caller is never mutated: after any call,
`f_2258` hands back exactly the dataset it was given. -/
theorem render_preserves_caller_dataframe (df : DataFrame) (cc sc : String) :
    (f_2258 df cc sc).df = df := by
  rcases f_2258_shape df cc sc with ⟨m0, h⟩ | ⟨k0, h⟩ | ⟨bars, h⟩ <;> rw [h]

/-- Claim C9: a zero-row dataset short-circuits before any column access:
`f_2258` raises the emptiness InvalidDataError for every pair of column
names, existing or not, so a KeyError is never raised on an empty frame. -/
theorem render_empty_short_circuits (df : DataFrame) (cc sc : String)
    (h : df.nrows = 0) :
    (f_2258 df cc sc).result = .error (.valueError msgEmptyOrNonNumeric) := by
  have he : df.empty = true := by simp [DataFrame.empty, h]
  simp [f_2258, he]

/-- Claim C9 witness: a frame with no columns at all, queried with column
names that do not exist, still raises the emptiness error. -/
theorem render_empty_short_circuits_witness :
    (f_2258 exNoColsDf "Category" "Sales").result
        = .error (.valueError msgEmptyOrNonNumeric) :=
  render_empty_short_circuits exNoColsDf "Category" "Sales" rfl

/-- Claim C10: whenever `f_2258` returns normally its value is an actual
chart handle, never the Python value None. -/
theorem render_never_returns_none (df : DataFrame) (cc sc : String)
    (v : Option Chart) (h : (f_2258 df cc sc).result = .ok v) :
    v.isSome = true := by
  rcases f_2258_shape df cc sc with ⟨m0, hs⟩ | ⟨k0, hs⟩ | ⟨bars, hs⟩ <;> rw [hs] at h
  · simp at h
  · simp at h
  · simp only [Except.ok.injEq] at h
    rw [← h]
    rfl

/-- Claim C10 witness: the doctest frame returns the concrete chart, which
is not None. -/
theorem render_never_returns_none_witness :
    (some exChart).isSome = true :=
  render_never_returns_none exDf "Category" "Sales" (some exChart) rfl
